import Mathlib

/-!
Shallow embedding of `convert_cursors.py`, a Windows-to-Linux cursor theme
converter. Filenames and file contents are modelled as `List Char`; the
external `win2xcur` invocation and filesystem effects are modelled by
explicit data (a `ToolRun` record per invocation, a `ReadResult` for the
descriptor file). All definitions mirror the Python source.
-/

namespace ConvertCursors

/-- `CURSOR_MAPPINGS` from the source: role name to space-separated Linux
cursor filename aliases. -/
def CURSOR_MAPPINGS : List (String × String) := [
  ("Alternate", "bottom_left_corner bottom_right_corner bottom_side down-arrow left-arrow left_side right-arrow right_side top_left_corner top_right_corner top_side up_arrow"),
  ("Busy", "half-busy wait watch"),
  ("Cross", "cross crosshair"),
  ("Default", "arrow default left_ptr size-bdiag size-fdiag size-hor size-ver top_left_arrow"),
  ("Dgn1", "nw-resize nwse-resize se-resize size_fdiag"),
  ("Dgn2", "ne-resize nesw-resize sw-resize size_bdiag"),
  ("Hand", "draft pencil"),
  ("Help", "help left_ptr_help question_arrow whats_this"),
  ("Horizontal", "col-resize e-resize ew-resize h_double_arrow sb_h_double_arrow size_hor split_h w-resize"),
  ("Link", "grab hand hand1 hand2 openhand pointer pointing_hand"),
  ("Move", "all-scroll closedhand dnd-move dnd-none fleur grabbing move size_all"),
  ("Text", "ibeam text xterm"),
  ("Unavailable", "circle crossed_circle dnd_no_drop forbidden no_drop not_allowed"),
  ("Vertical", "n-resize ns-resize row-resize s-resize sb_v_double_arrow size_ver split_v v_double_arrow"),
  ("Work", "left_ptr_watch pirate progress")]

/-- `CURSOR_MAPPINGS.get(cursor_name, "")`: dictionary lookup with default
empty string. -/
def cursorMappingsGet (k : String) : String :=
  ((CURSOR_MAPPINGS.find? (fun p => p.1 == k)).map (fun p => p.2)).getD ""

/-- The keys of `CURSOR_MAPPINGS`. -/
def roleKeys : List String := CURSOR_MAPPINGS.map (fun p => p.1)

/-- Python whitespace characters recognised by `str.split()` / `str.strip()`
(ASCII range). -/
def isPySpace (c : Char) : Bool :=
  c = ' ' ∨ c = '\t' ∨ c = '\n' ∨ c = '\x0b' ∨ c = '\x0c' ∨ c = '\r'

/-- `str.strip()`: drop leading and trailing whitespace. -/
def pyStrip (s : List Char) : List Char :=
  ((s.dropWhile isPySpace).reverse.dropWhile isPySpace).reverse

/-- Helper for `pySplit`: accumulates the current word (reversed). -/
def pySplitAux : List Char → List Char → List (List Char)
  | [], acc => if acc.isEmpty then [] else [acc.reverse]
  | c :: rest, acc =>
    if isPySpace c then
      if acc.isEmpty then pySplitAux rest [] else acc.reverse :: pySplitAux rest []
    else pySplitAux rest (c :: acc)

/-- `str.split()` with no argument: split on runs of whitespace, no empty
words. -/
def pySplit (s : List Char) : List (List Char) := pySplitAux s []

/-- `linux_names.split()` applied to a role's mapping entry: the target
alias names a converted cursor is duplicated under. -/
def linuxNameList (role : String) : List (List Char) :=
  pySplit (cursorMappingsGet role).data

/-- `str.split('\n')`: split content into lines. -/
def splitLines : List Char → List (List Char)
  | [] => [[]]
  | c :: rest =>
    if c = '\n' then [] :: splitLines rest
    else
      match splitLines rest with
      | [] => [[c]]
      | l :: ls => (c :: l) :: ls

/-- Index of the last '.' in a name (`str.rfind('.')` when it hits). -/
def rfindDot : List Char → Option Nat
  | [] => none
  | c :: rest =>
    match rfindDot rest with
    | some j => some (j + 1)
    | none => if c = '.' then some (0 : Nat) else none

/-- `pathlib.PurePath.stem`: the name without its last suffix; the suffix
exists only when the last dot is neither the first nor the last character. -/
def pyStem (name : List Char) : List Char :=
  match rfindDot name with
  | none => name
  | some i => if 0 < i ∧ i < name.length - 1 then name.take i else name

/-- `str.lower()` (ASCII letters, which covers all names in play). -/
def toLowerStr (s : List Char) : List Char := s.map Char.toLower

/-- Whether `p` occurs at the head of `s`. -/
def leadsIn : List Char → List Char → Bool
  | [], _ => true
  | _ :: _, [] => false
  | c :: p, d :: s => c = d && leadsIn p s

/-- Python's `p in s` on strings: `p` occurs contiguously somewhere in `s`. -/
def substrIn (p : List Char) : List Char → Bool
  | [] => leadsIn p []
  | d :: rest => leadsIn p (d :: rest) || substrIn p rest

/-- `any(x in base_name for x in pats)`: some pattern occurs as a substring
of the base name. -/
def containsAny (base : List Char) (pats : List String) : Bool :=
  pats.any (fun p => substrIn p.data base)

/-- The filename-pattern fallback of `get_cursor_name_from_inf`
(lines 120-151): the if/elif chain over substrings of the lowercased stem. -/
def patternRole (base : List Char) : Option String :=
  if containsAny base ["normal", "arrow", "default"] then some "Default"
  else if containsAny base ["busy", "wait"] then some "Busy"
  else if containsAny base ["text", "beam"] then some "Text"
  else if containsAny base ["handwriting", "hand"] then some "Hand"
  else if containsAny base ["link"] then some "Link"
  else if containsAny base ["precision", "cross"] then some "Cross"
  else if containsAny base ["move"] then some "Move"
  else if containsAny base ["help"] then some "Help"
  else if containsAny base ["unavailable", "no"] then some "Unavailable"
  else if containsAny base ["vertical", "vert"] then some "Vertical"
  else if containsAny base ["horizontal", "horz"] then some "Horizontal"
  else if containsAny base ["diagonal1", "dgn1"] then some "Dgn1"
  else if containsAny base ["diagonal2", "dgn2"] then some "Dgn2"
  else if containsAny base ["working", "work", "progress"] then some "Work"
  else if containsAny base ["alternate", "alt"] then some "Alternate"
  else none

/-- `base_name = cursor_file.stem.lower()` followed by the pattern chain. -/
def classifyByFilename (fileName : List Char) : Option String :=
  patternRole (toLowerStr (pyStem fileName))

/-- The fixed identifier table inside `get_cursor_name_from_inf`
(lines 95-111): descriptor identifier (lowercase) to role name. -/
def infMapping : List (List Char × String) := [
  ("pointer".data, "Default"),
  ("help".data, "Help"),
  ("working".data, "Work"),
  ("busy".data, "Busy"),
  ("precision".data, "Cross"),
  ("text".data, "Text"),
  ("hand".data, "Hand"),
  ("unavailable".data, "Unavailable"),
  ("vert".data, "Vertical"),
  ("horz".data, "Horizontal"),
  ("dgn1".data, "Dgn1"),
  ("dgn2".data, "Dgn2"),
  ("move".data, "Move"),
  ("alternate".data, "Alternate"),
  ("link".data, "Link")]

/-- `mapping.get(cursor_var.lower())`: case-insensitive identifier lookup,
`none` when unrecognised. -/
def lookupIdent (v : List Char) : Option String :=
  (infMapping.find? (fun p => p.1 == toLowerStr v)).map (fun p => p.2)

/-- `f'= "{file_name}"'`: the literal substring a descriptor line must
contain to name this source file. -/
def needle (fileName : List Char) : List Char :=
  '=' :: ' ' :: '\"' :: (fileName ++ ['\"'])

/-- Whether a descriptor line names this exact source file. -/
def lineNames (fileName line : List Char) : Bool :=
  substrIn (needle fileName) line

/-- `line.split('=')[0].strip()`: the identifier on the left of the
assignment. -/
def identOf (line : List Char) : List Char :=
  pyStrip (line.takeWhile (fun c => c ≠ '='))

/-- Outcome of trying to read the descriptor (`install.inf`) file:
no descriptor present, the read raised, or the content was read. -/
inductive ReadResult where
  | absent : ReadResult
  | failed : ReadResult
  | ok (content : List Char) : ReadResult
deriving DecidableEq

/-- `get_cursor_name_from_inf` (lines 82-151): resolve a role from the
descriptor's first line naming the file, else fall back to filename
patterns; a read error also falls back. Returns `none` for unresolved. -/
def get_cursor_name_from_inf (inf : ReadResult) (fileName : List Char) :
    Option String :=
  match inf with
  | .ok content =>
    match (splitLines content).find? (lineNames fileName) with
    | some line => lookupIdent (identOf line)
    | none => classifyByFilename fileName
  | _ => classifyByFilename fileName

/-- One invocation of the external tool inside `convert_cursor_file`:
whether any exception was raised, the exit code, and the artifacts left in
the scratch directory. -/
structure ToolRun where
  raised : Bool
  returncode : Int
  outputs : List String
deriving DecidableEq

/-- `convert_cursor_file` (lines 153-177): success iff no exception, zero
exit code and at least one artifact to copy under the alias names. -/
def convert_cursor_file (t : ToolRun) : Bool :=
  if t.raised then false
  else if t.returncode == 0 then !t.outputs.isEmpty
  else false

/-- `create_index_theme` (lines 179-191): the content written to
`index.theme`. -/
def create_index_theme (themeName : String) : String :=
  "[Icon Theme]\nName=" ++ themeName ++
  "\nComment=Converted Windows cursor theme: " ++ themeName ++
  "\nInherits=core\n"

/-- The per-theme report printed by `process_cursor_theme`: either the
early-return "No cursor files found" message, or converted/total counts. -/
inductive Report where
  | noFiles : Report
  | counts (converted total : Nat) : Report
deriving DecidableEq

/-- Observable effects of `process_cursor_theme` on one theme. -/
structure ThemeOutcome where
  madeCursorsDir : Bool
  indexThemeWritten : Bool
  report : Report
  skippedUnmapped : List (List Char)
deriving DecidableEq

/-- How many files of the theme convert successfully: a file counts iff it
classifies to a role, the role has a nonempty mapping, and the conversion
succeeds (`conv`). -/
def convertedCount (inf : ReadResult) (conv : List Char → Bool) :
    List (List Char) → Nat
  | [] => 0
  | f :: fs =>
    (match get_cursor_name_from_inf inf f with
     | none => 0
     | some role =>
       if cursorMappingsGet role ≠ "" then (if conv f then 1 else 0) else 0)
    + convertedCount inf conv fs

/-- The files skipped as "unmapped cursor" (classifier returned `none`). -/
def unmappedFiles (inf : ReadResult) : List (List Char) → List (List Char)
  | [] => []
  | f :: fs =>
    (if (get_cursor_name_from_inf inf f).isNone then [f] else []) ++
    unmappedFiles inf fs

/-- The files reported "Failed to convert": classified, mapped, but the
conversion returned failure. -/
def failedFiles (inf : ReadResult) (conv : List Char → Bool) :
    List (List Char) → List (List Char)
  | [] => []
  | f :: fs =>
    (match get_cursor_name_from_inf inf f with
     | none => []
     | some role =>
       if cursorMappingsGet role ≠ "" then (if conv f then [] else [f]) else [])
    ++ failedFiles inf conv fs

/-- `process_cursor_theme` (lines 193-233): make the `cursors` directory,
then with no cursor files return early (no `index.theme`, "no files"
report); otherwise process every file and report converted/total, then
write `index.theme`. -/
def process_cursor_theme (inf : ReadResult) (files : List (List Char))
    (conv : List Char → Bool) : ThemeOutcome :=
  if files.isEmpty then
    { madeCursorsDir := true, indexThemeWritten := false,
      report := .noFiles, skippedUnmapped := [] }
  else
    { madeCursorsDir := true, indexThemeWritten := true,
      report := .counts (convertedCount inf conv files) files.length,
      skippedUnmapped := unmappedFiles inf files }

/-- Environment of `run` (lines 235-260): whether `win2xcur` responds,
whether the input directory already existed, and how many theme
subdirectories it holds. -/
structure RunEnv where
  win2xcurOk : Bool
  inputDirExisted : Bool
  themeCount : Nat
deriving DecidableEq

/-- The process exit code of `run`: 1 when `check_win2xcur` fails, else 0
in every terminal branch (fresh input directory, no themes, or a completed
pass over the themes). -/
def runExit (e : RunEnv) : Nat :=
  if !e.win2xcurOk then 1
  else if !e.inputDirExisted then 0
  else if e.themeCount = 0 then 0
  else 0

/-- The pattern table of spec section 4.1 step 2: substring sets per role in
the documented priority order, first match wins. -/
def patternRules : List (List String × String) := [
  (["normal", "arrow", "default"], "Default"),
  (["busy", "wait"], "Busy"),
  (["text", "beam"], "Text"),
  (["handwriting", "hand"], "Hand"),
  (["link"], "Link"),
  (["precision", "cross"], "Cross"),
  (["move"], "Move"),
  (["help"], "Help"),
  (["unavailable", "no"], "Unavailable"),
  (["vertical", "vert"], "Vertical"),
  (["horizontal", "horz"], "Horizontal"),
  (["diagonal1", "dgn1"], "Dgn1"),
  (["diagonal2", "dgn2"], "Dgn2"),
  (["working", "work", "progress"], "Work"),
  (["alternate", "alt"], "Alternate")]

/-- First rule of the table whose substring set matches the base name. -/
def firstMatch (base : List Char) : List (List String × String) → Option String
  | [] => none
  | (pats, r) :: rest =>
    if containsAny base pats then some r else firstMatch base rest

/-- A predicate with exactly one satisfier in the list is found at it. -/
theorem find?_eq_of_unique {α : Type} (p : α → Bool) (l : List α) (x : α)
    (hmem : x ∈ l) (hx : p x = true)
    (huniq : ∀ y ∈ l, p y = true → y = x) :
    l.find? p = some x := by
  induction l with
  | nil => cases hmem
  | cons a as ih =>
    by_cases ha : p a = true
    · have hax : a = x := huniq a (List.mem_cons_self a as) ha
      subst hax
      simp [List.find?_cons_of_pos, ha]
    · have hxas : x ∈ as := by
        rcases List.mem_cons.mp hmem with h | h
        · exact absurd (h ▸ hx) ha
        · exact h
      rw [List.find?_cons_of_neg _ (by simpa using ha)]
      exact ih hxas (fun y hy hpy => huniq y (List.mem_cons_of_mem a hy) hpy)

/-- The if/elif chain of the source is the first-match scan of the ordered
rule table. -/
theorem patternRole_eq_firstMatch (base : List Char) :
    patternRole base = firstMatch base patternRules := rfl

/-- A role produced by `firstMatch` is the role of one of the rules. -/
theorem firstMatch_mem (base : List Char) (rules : List (List String × String))
    (r : String) (h : firstMatch base rules = some r) :
    r ∈ rules.map (fun pr => pr.2) := by
  induction rules with
  | nil => exact Option.noConfusion h
  | cons a rest ih =>
    rcases a with ⟨pats, r0⟩
    unfold firstMatch at h
    by_cases hc : containsAny base pats = true
    · rw [if_pos hc] at h
      injection h with h
      subst h
      exact List.mem_cons_self _ _
    · rw [if_neg hc] at h
      exact List.mem_cons_of_mem _ (ih h)

/-- Any role returned by the filename-pattern fallback has a nonempty entry
in `CURSOR_MAPPINGS`. -/
theorem patternRole_mapped (base : List Char) (r : String)
    (h : patternRole base = some r) : cursorMappingsGet r ≠ "" := by
  rw [patternRole_eq_firstMatch] at h
  have hr := firstMatch_mem _ _ _ h
  have hall : ∀ s ∈ patternRules.map (fun pr => pr.2), cursorMappingsGet s ≠ "" := by
    decide
  exact hall r hr

/-- Any role returned by the descriptor identifier table has a nonempty
entry in `CURSOR_MAPPINGS`. -/
theorem lookupIdent_mapped (v : List Char) (r : String)
    (h : lookupIdent v = some r) : cursorMappingsGet r ≠ "" := by
  unfold lookupIdent at h
  rcases hf : infMapping.find? (fun p => p.1 == toLowerStr v) with _ | p
  · rw [hf] at h
    exact Option.noConfusion h
  · rw [hf] at h
    simp only [Option.map_some', Option.some.injEq] at h
    have hp : p ∈ infMapping := List.mem_of_find?_eq_some hf
    have hall : ∀ q ∈ infMapping, cursorMappingsGet q.2 ≠ "" := by decide
    exact h ▸ hall p hp

/-- C1 counterexample: with descriptor content `Scroll = "busy.cur"` and
source file `busy.cur`, the matching line's identifier `scroll` is not one
of the 15 known identifiers, yet classification returns `none` instead of
the pattern-derived role `some "Busy"` — it does not fall through to
filename-pattern matching. -/
theorem c1_counterexample :
    get_cursor_name_from_inf (.ok "Scroll = \"busy.cur\"".data) "busy.cur".data
      = none ∧
    classifyByFilename "busy.cur".data = some "Busy" ∧
    get_cursor_name_from_inf (.ok "Scroll = \"busy.cur\"".data) "busy.cur".data
      ≠ classifyByFilename "busy.cur".data := by
  refine ⟨by decide, by decide, by decide⟩

/-- C1 (amended): when the first descriptor line naming the exact source
filename has a left-hand identifier outside the 15 known identifiers,
classification stops at the descriptor step and returns the unresolved
value `none`; it does not fall through to filename-pattern matching. -/
theorem c1_unknown_ident_stops_at_descriptor
    (content fileName line : List Char)
    (hfind : (splitLines content).find? (lineNames fileName) = some line)
    (hident : lookupIdent (identOf line) = none) :
    get_cursor_name_from_inf (.ok content) fileName = none := by
  simp only [get_cursor_name_from_inf, hfind, hident]

/-- C1 witness: the amended claim applied at the counterexample input. -/
theorem c1_unknown_ident_stops_at_descriptor_witness :
    get_cursor_name_from_inf (.ok "Scroll = \"busy.cur\"".data) "busy.cur".data
      = none :=
  c1_unknown_ident_stops_at_descriptor "Scroll = \"busy.cur\"".data
    "busy.cur".data "Scroll = \"busy.cur\"".data (by decide) (by decide)

/-- C2 counterexample: a theme with zero cursor source files makes the
`cursors` directory but does not write `index.theme` and is reported with
the "no cursor files found" message, not with counts 0/0. -/
theorem c2_counterexample :
    (process_cursor_theme .absent [] (fun _ => true)).indexThemeWritten
      = false ∧
    (process_cursor_theme .absent [] (fun _ => true)).report = Report.noFiles ∧
    Report.noFiles ≠ Report.counts 0 0 := by
  refine ⟨rfl, rfl, by decide⟩

/-- C2 (amended): processing a theme with zero cursor source files still
creates the (empty) `cursors` output directory, but returns early: no
`index.theme` record is produced and the theme is reported as having no
cursor files rather than with a 0/0 converted count. -/
theorem c2_empty_theme_early_return (inf : ReadResult)
    (conv : List Char → Bool) :
    process_cursor_theme inf [] conv =
      { madeCursorsDir := true, indexThemeWritten := false,
        report := .noFiles, skippedUnmapped := [] } := rfl

/-- C3: the role table has exactly the 15 documented keys, "Text" expands to
exactly {ibeam, text, xterm}, and "Default" expands to exactly {left_ptr,
default, arrow, top_left_arrow, size-bdiag, size-fdiag, size-hor, size-ver}
(as a set). -/
theorem c3_role_table_aliases :
    roleKeys = ["Alternate", "Busy", "Cross", "Default", "Dgn1", "Dgn2",
      "Hand", "Help", "Horizontal", "Link", "Move", "Text", "Unavailable",
      "Vertical", "Work"] ∧
    linuxNameList "Text" = ["ibeam".data, "text".data, "xterm".data] ∧
    (linuxNameList "Default").Perm
      ["left_ptr".data, "default".data, "arrow".data, "top_left_arrow".data,
       "size-bdiag".data, "size-fdiag".data, "size-hor".data,
       "size-ver".data] := by
  refine ⟨by decide, by decide, by decide⟩

/-- C4: pattern classification strips the extension and lowercases the base
name, then scans the fixed substring sets in the fixed priority order
Default, Busy, Text, Hand, Link, Cross, Move, Help, Unavailable, Vertical,
Horizontal, Dgn1, Dgn2, Work, Alternate, returning the role of the first
matching set; in particular "MyBusyCursor.cur" classifies as "Busy". -/
theorem c4_pattern_order_and_case_insensitive :
    (∀ fileName : List Char,
      classifyByFilename fileName =
        firstMatch (toLowerStr (pyStem fileName)) patternRules) ∧
    classifyByFilename "MyBusyCursor.cur".data = some "Busy" :=
  ⟨fun fileName => patternRole_eq_firstMatch (toLowerStr (pyStem fileName)),
   by decide⟩

/-- C5: a file named by the descriptor's (unique) matching association with
a recognised identifier resolves to the descriptor's role, even when a
filename-pattern rule also matches and would give another role. -/
theorem c5_descriptor_overrides_pattern
    (content fileName line : List Char) (r r' : String)
    (hmem : line ∈ splitLines content)
    (hline : lineNames fileName line = true)
    (huniq : ∀ l ∈ splitLines content, lineNames fileName l = true → l = line)
    (hident : lookupIdent (identOf line) = some r)
    (hpat : classifyByFilename fileName = some r') :
    get_cursor_name_from_inf (.ok content) fileName = some r := by
  have hfind :=
    find?_eq_of_unique (lineNames fileName) (splitLines content) line
      hmem hline huniq
  simp only [get_cursor_name_from_inf, hfind, hident]

/-- C5 witness: descriptor `pointer = "busy.cur"` classifies `busy.cur` as
"Default" although the filename pattern alone would give "Busy". -/
theorem c5_descriptor_overrides_pattern_witness :
    get_cursor_name_from_inf (.ok "pointer = \"busy.cur\"".data)
      "busy.cur".data = some "Default" ∧
    classifyByFilename "busy.cur".data = some "Busy" :=
  ⟨c5_descriptor_overrides_pattern "pointer = \"busy.cur\"".data
      "busy.cur".data "pointer = \"busy.cur\"".data "Default" "Busy"
      (by decide) (by decide) (by decide) (by decide) (by decide),
   by decide⟩

/-- C6: an unresolvable filename classifies to `none` (the classifier is a
total function, so nothing is raised); the theme processor skips it,
records it among the unmapped files, counts it in the total but not in the
converted count, and processes the remaining files. -/
theorem c6_unresolved_skip_and_continue
    (inf : ReadResult) (f : List Char) (fs : List (List Char))
    (conv : List Char → Bool)
    (h : get_cursor_name_from_inf inf f = none) :
    convertedCount inf conv (f :: fs) = convertedCount inf conv fs ∧
    unmappedFiles inf (f :: fs) = f :: unmappedFiles inf fs ∧
    (process_cursor_theme inf (f :: fs) conv).report =
      .counts (convertedCount inf conv fs) (fs.length + 1) := by
  refine ⟨?_, ?_, ?_⟩
  · simp [convertedCount, h]
  · simp [unmappedFiles, h]
  · simp [process_cursor_theme, convertedCount, h, List.length_cons]

/-- C6 witness: `foo.cur` is unresolvable; a theme holding only it reports
0 converted of 1 total. -/
theorem c6_unresolved_skip_and_continue_witness :
    get_cursor_name_from_inf .absent "foo.cur".data = none ∧
    (process_cursor_theme .absent ["foo.cur".data] (fun _ => true)).report =
      .counts 0 1 :=
  ⟨by decide,
   (c6_unresolved_skip_and_continue .absent "foo.cur".data [] (fun _ => true)
      (by decide)).2.2⟩

/-- C7: when the external tool exits non-zero or leaves no artifact in the
scratch directory, `convert_cursor_file` returns failure; the theme
processor counts the file as failed and continues with the remaining
files, still producing the theme's report. -/
theorem c7_conversion_failure_counted_and_continues
    (inf : ReadResult) (f : List Char) (fs : List (List Char))
    (runOf : List Char → ToolRun) (role : String)
    (hrole : get_cursor_name_from_inf inf f = some role)
    (hmap : cursorMappingsGet role ≠ "")
    (hfail : (runOf f).returncode ≠ 0 ∨ (runOf f).outputs = []) :
    convert_cursor_file (runOf f) = false ∧
    convertedCount inf (fun g => convert_cursor_file (runOf g)) (f :: fs) =
      convertedCount inf (fun g => convert_cursor_file (runOf g)) fs ∧
    failedFiles inf (fun g => convert_cursor_file (runOf g)) (f :: fs) =
      f :: failedFiles inf (fun g => convert_cursor_file (runOf g)) fs ∧
    (process_cursor_theme inf (f :: fs)
        (fun g => convert_cursor_file (runOf g))).report =
      .counts (convertedCount inf (fun g => convert_cursor_file (runOf g)) fs)
        (fs.length + 1) := by
  have hcf : convert_cursor_file (runOf f) = false := by
    unfold convert_cursor_file
    rcases hfail with h | h
    · simp [h]
    · simp [h]
  refine ⟨hcf, ?_, ?_, ?_⟩
  · simp [convertedCount, hrole, hmap, hcf]
  · simp [failedFiles, hrole, hmap, hcf]
  · simp [process_cursor_theme, convertedCount, hrole, hmap, hcf,
      List.length_cons]

/-- C7 witness: a tool run exiting with code 1 fails the file `busy.cur`,
and the one-file theme still reports 0 converted of 1 total. -/
theorem c7_conversion_failure_witness :
    convert_cursor_file ⟨false, 1, ["out"]⟩ = false ∧
    (process_cursor_theme .absent ["busy.cur".data]
        (fun _ => convert_cursor_file ⟨false, 1, ["out"]⟩)).report =
      .counts 0 1 := by
  have hc := c7_conversion_failure_counted_and_continues .absent
    "busy.cur".data [] (fun _ => (⟨false, 1, ["out"]⟩ : ToolRun)) "Busy"
    (by decide) (by decide) (Or.inl (by decide))
  exact ⟨hc.1, hc.2.2.2⟩

/-- C8: the process exit code is 1 exactly when `win2xcur` is missing at
startup, and 0 in every other terminal condition (fresh input directory,
no theme subdirectories, or a completed pass). -/
theorem c8_exit_one_iff_missing_dependency (e : RunEnv) :
    (runExit e = 1 ↔ e.win2xcurOk = false) ∧
    (runExit e = 0 ↔ e.win2xcurOk = true) := by
  rcases e with ⟨ok, ind, n⟩
  cases ok <;> cases ind <;> simp [runExit]

/-- C8 witness: missing dependency exits 1; a fresh input directory exits
0. -/
theorem c8_exit_one_iff_missing_dependency_witness :
    runExit ⟨false, true, 0⟩ = 1 ∧ runExit ⟨true, false, 3⟩ = 0 :=
  ⟨(c8_exit_one_iff_missing_dependency ⟨false, true, 0⟩).1.mpr rfl,
   (c8_exit_one_iff_missing_dependency ⟨true, false, 3⟩).2.mpr rfl⟩

/-- C9: every role the classifier can return is a key of `CURSOR_MAPPINGS`
with a nonempty alias string, so target expansion never yields the empty
string and the "No mapping found" skip branch is unreachable. -/
theorem c9_every_returned_role_is_mapped
    (inf : ReadResult) (f : List Char) (r : String)
    (h : get_cursor_name_from_inf inf f = some r) :
    cursorMappingsGet r ≠ "" := by
  rcases inf with _ | _ | content
  · simp only [get_cursor_name_from_inf] at h
    unfold classifyByFilename at h
    exact patternRole_mapped _ _ h
  · simp only [get_cursor_name_from_inf] at h
    unfold classifyByFilename at h
    exact patternRole_mapped _ _ h
  · simp only [get_cursor_name_from_inf] at h
    split at h
    · exact lookupIdent_mapped _ _ h
    · unfold classifyByFilename at h
      exact patternRole_mapped _ _ h

/-- C9 witness: `busy.cur` classifies to "Busy", whose alias string is
nonempty. -/
theorem c9_every_returned_role_is_mapped_witness :
    get_cursor_name_from_inf .absent "busy.cur".data = some "Busy" ∧
    cursorMappingsGet "Busy" ≠ "" :=
  ⟨by decide,
   c9_every_returned_role_is_mapped .absent "busy.cur".data "Busy" (by decide)⟩

/-- C10: a descriptor whose read raises is classified exactly like an
absent descriptor: the exception is swallowed and classification falls
back to filename-pattern matching. -/
theorem c10_descriptor_read_error_swallowed (f : List Char) :
    get_cursor_name_from_inf .failed f = get_cursor_name_from_inf .absent f ∧
    get_cursor_name_from_inf .failed f = classifyByFilename f :=
  ⟨rfl, rfl⟩

end ConvertCursors
